import Mathlib

/-!
Verification of the f3 SPI + L3GD20 gyroscope driver.

The development shallowly embeds the two protocol layers of the driver:

* `src/spi.rs` — the non-blocking transport: `Spi::read` and `Spi::send`
  inspect one hardware-status snapshot and classify it into
  ready / not-yet-ready / fault.  We model a status snapshot as a record of
  the five status bits the code reads (`OVR`, `MODF`, `CRCERR`, `RXNE`,
  `TXE`) and the two functions as pure functions of that snapshot.
* `src/l3gd20.rs` — the register protocol and device controller.  Bus
  transactions are modelled against an abstract bus machine `Bus σ`
  whose per-attempt operations may answer ready, not-yet-ready or a fault;
  the `block!` retry macro is modelled with explicit fuel (`none` means the
  retry loop was still spinning when the fuel ran out, i.e. the Rust code
  has not returned).  Every driver operation additionally produces a trace
  of chip-select and byte-exchange events so that framing and ordering
  claims can be stated.

Machine integers are modelled as `Nat` with explicit `% 256` / `% 65536`
where the Rust code casts between integer types; `f32` values produced by
the measurement decoder are modelled as exact rationals with the
irrational `to_radians` factor (π/180) abstracted as a parameter, which is
faithful for the decoder because the only float operations involved are
multiplications that are exact at the inputs the claims mention.
-/

/-- SPI bus fault kinds, from `spi::Error` (`_Extensible` is a hidden,
never-constructed variant and is omitted). -/
inductive SpiError
  | Overrun
  | ModeFault
  | Crc
  deriving DecidableEq

/-- The `nb::Error` wrapper: an operation either fails for real
(`other`) or is not yet ready (`wouldBlock`). -/
inductive NbErr (ε : Type)
  | wouldBlock
  | other (e : ε)
  deriving DecidableEq

/-- Rust's `Result`, with the error variant first as in `Result<T, E>`
usage sites of the driver. -/
inductive Res (ε : Type) (α : Type)
  | ok (a : α)
  | err (e : ε)
  deriving DecidableEq

/-- The slice of the SPI status register `SR` that `Spi::read` and
`Spi::send` inspect. -/
structure StatusReg where
  ovr : Bool
  modf : Bool
  crcerr : Bool
  rxne : Bool
  txe : Bool
  deriving DecidableEq

namespace Spi

/-- `Spi::read` from `src/spi.rs`: one non-blocking receive attempt,
classifying a single status snapshot; `dr` is the current content of the
data register (a byte, hence `% 256`). -/
def read (sr : StatusReg) (dr : Nat) : Res (NbErr SpiError) Nat :=
  if sr.ovr then .err (.other .Overrun)
  else if sr.modf then .err (.other .ModeFault)
  else if sr.crcerr then .err (.other .Crc)
  else if sr.rxne then .ok (dr % 256)
  else .err .wouldBlock

/-- `Spi::send` from `src/spi.rs`: one non-blocking send attempt,
classifying a single status snapshot. -/
def send (sr : StatusReg) : Res (NbErr SpiError) Unit :=
  if sr.ovr then .err (.other .Overrun)
  else if sr.modf then .err (.other .ModeFault)
  else if sr.crcerr then .err (.other .Crc)
  else if sr.txe then .ok ()
  else .err .wouldBlock

end Spi

/-- Constant `MS` from `src/l3gd20.rs`: the multi-register (auto-increment)
bit of a command byte. -/
def MS : Nat := 1 <<< 6

/-- Constant `SENSOR_ID` from `src/l3gd20.rs`: content of `WHO_AM_I`. -/
def SENSOR_ID : Nat := 0b11010100

/-- Constant `JUNK_DATA` from `src/l3gd20.rs`: filler byte sent to clock a
read. -/
def JUNK_DATA : Nat := 0x00

/-- Constant `ENABLE_SENSOR` from `src/l3gd20.rs`: `CTRL_REG1` bits for
power-on plus X, Y, Z axis enable. -/
def ENABLE_SENSOR : Nat := 0x0F

/-- Constant `ENABLE_DRDY` from `src/l3gd20.rs`: `CTRL_REG3` bit enabling
the data-ready interrupt. -/
def ENABLE_DRDY : Nat := 0x08

namespace Register

/-- `Register::WHO_AM_I` discriminant. -/
def WHO_AM_I : Nat := 0x0F

/-- `Register::CTRL_REG1` discriminant. -/
def CTRL_REG1 : Nat := 0x20

/-- `Register::CTRL_REG3` discriminant. -/
def CTRL_REG3 : Nat := 0x22

/-- `Register::CTRL_REG4` discriminant. -/
def CTRL_REG4 : Nat := 0x23

/-- `Register::OUT_TEMP` discriminant. -/
def OUT_TEMP : Nat := 0x26

/-- `Register::STATUS_REG` discriminant. -/
def STATUS_REG : Nat := 0x27

/-- `Register::OUT_X_L` discriminant. -/
def OUT_X_L : Nat := 0x28

end Register

/-- `ODR` output-data-rate selection from `src/l3gd20.rs`. -/
inductive ODR
  | Hz95
  | Hz190
  | Hz380
  | Hz760
  deriving DecidableEq

/-- The `repr(u8)` discriminant of an `ODR` value. -/
def ODR.val : ODR → Nat
  | .Hz95 => 0x00
  | .Hz190 => 0x40
  | .Hz380 => 0x80
  | .Hz760 => 0xC0

/-- `CutOff` low-pass filter selection from `src/l3gd20.rs`. -/
inductive CutOff
  | Freq30
  | Freq35
  | Freq50
  | Freq100
  deriving DecidableEq

/-- The `repr(u8)` discriminant of a `CutOff` value. -/
def CutOff.val : CutOff → Nat
  | .Freq30 => 0x00
  | .Freq35 => 0x10
  | .Freq50 => 0x20
  | .Freq100 => 0x30

/-- `ScaleSelection` full-scale selection from `src/l3gd20.rs`. -/
inductive ScaleSelection
  | Dps250
  | Dps500
  | Dps2000
  deriving DecidableEq

/-- The `repr(u8)` discriminant of a `ScaleSelection` value. -/
def ScaleSelection.val : ScaleSelection → Nat
  | .Dps250 => 0x00
  | .Dps500 => 0x10
  | .Dps2000 => 0x30

/-- The milli-degrees-per-second-per-LSB constant matched on inside
`ScaleSelection::scale_factor` (8.75e-3, 17.5e-3, 70e-3 as exact
rationals). -/
def ScaleSelection.mdps : ScaleSelection → ℚ
  | .Dps250 => 7 / 800
  | .Dps500 => 7 / 400
  | .Dps2000 => 7 / 100

/-- `ScaleSelection::scale_factor` from `src/l3gd20.rs`: the
radians-per-second-per-LSB factor.  `Float::to_radians` multiplies by
π/180; since π is irrational (and the code computes in `f32`), the
conversion constant is abstracted as the parameter `degToRad`. -/
def ScaleSelection.scale_factor (s : ScaleSelection) (degToRad : ℚ) : ℚ :=
  s.mdps * degToRad

/-- `Config` from `src/l3gd20.rs`. -/
structure Config where
  odr : ODR
  cut_off : CutOff
  interrupt : Bool
  scale : ScaleSelection

/-- `Status` from `src/l3gd20.rs`: the eight decoded status flags. -/
structure Status where
  sensor_overrun : Bool
  z_overrun : Bool
  y_overrun : Bool
  x_overrun : Bool
  new_data : Bool
  z_new : Bool
  y_new : Bool
  x_new : Bool
  deriving DecidableEq

/-- The status decoding performed inside `L3GD20::status` on the byte read
from `STATUS_REG` (`data[0] & mask != 0` for the eight masks). -/
def decodeStatus (b : Nat) : Status :=
  ⟨b &&& 128 != 0, b &&& 64 != 0, b &&& 32 != 0, b &&& 16 != 0,
   b &&& 8 != 0, b &&& 4 != 0, b &&& 2 != 0, b &&& 1 != 0⟩

/-- Reinterpretation of a byte as `i8` (the `data[0] as i8` cast in
`L3GD20::temp`). -/
def toI8 (b : Nat) : Int :=
  if b % 256 < 128 then (b % 256 : Int) else (b % 256 : Int) - 256

/-- Reinterpretation of a `u16` word as `i16` (the `as i16` cast in
`L3GD20::measure`). -/
def toI16 (w : Nat) : Int :=
  if w % 65536 < 32768 then (w % 65536 : Int) else (w % 65536 : Int) - 65536

/-- `Measurement` from `src/l3gd20.rs`, with the three `f32` fields
modelled as rationals. -/
structure Measurement where
  x : ℚ
  y : ℚ
  z : ℚ
  deriving DecidableEq

/-- The decoding performed inside `L3GD20::measure` on the six bytes read
from `OUT_X_L`: for each axis `(out_h << 8) + out_l` in `u16`, cast to
`i16`, cast to float, multiplied by the scale factor.  Buffer bytes are
`u8`, hence the `% 256`. -/
def decodeMeasurement (data : List Nat) (scale : ℚ) : Measurement :=
  let out_x_l := data.getD 0 0 % 256
  let out_x_h := data.getD 1 0 % 256
  let out_y_l := data.getD 2 0 % 256
  let out_y_h := data.getD 3 0 % 256
  let out_z_l := data.getD 4 0 % 256
  let out_z_h := data.getD 5 0 % 256
  ⟨(toI16 ((out_x_h <<< 8) + out_x_l) : ℚ) * scale,
   (toI16 ((out_y_h <<< 8) + out_y_l) : ℚ) * scale,
   (toI16 ((out_z_h <<< 8) + out_z_l) : ℚ) * scale⟩

/-- Measurement decoding as the spec words it: for each axis, combine low
byte then high byte into an unsigned 16-bit word with a bitwise OR
(`(high << 8) | low`), reinterpret as signed 16-bit two's complement,
convert, and multiply by the scale factor. -/
def decode_measurement_spec (data : List Nat) (scale : ℚ) : Measurement :=
  let word (lo hi : Nat) : Nat := ((hi % 256) <<< 8) ||| (lo % 256)
  ⟨(toI16 (word (data.getD 0 0) (data.getD 1 0)) : ℚ) * scale,
   (toI16 (word (data.getD 2 0) (data.getD 3 0)) : ℚ) * scale,
   (toI16 (word (data.getD 4 0) (data.getD 5 0)) : ℚ) * scale⟩

namespace L3GD20

/-- The command byte sent at the start of `L3GD20::read`:
`const READ: u8 = 1 << 7; let cmd = if bytes.len() > 1 { READ | MS } else
{ READ };` and the device is sent `cmd | reg`. -/
def readCmd (reg : Nat) (len : Nat) : Nat :=
  (if len > 1 then (1 <<< 7) ||| MS else (1 <<< 7)) ||| reg

/-- The command byte sent at the start of `L3GD20::write`:
`const WRITE: u8 = 0 << 7; let cmd = if bytes.len() > 1 { WRITE | MS }
else { WRITE };` and the device is sent `cmd | reg`. -/
def writeCmd (reg : Nat) (len : Nat) : Nat :=
  (if len > 1 then (0 <<< 7) ||| MS else (0 <<< 7)) ||| reg

/-- The byte `L3GD20::config_reg1` writes to `CTRL_REG1`:
`odr as u8 | cut_off as u8 | ENABLE_SENSOR`. -/
def config_reg1_cmd (odr : ODR) (cut_off : CutOff) : Nat :=
  odr.val ||| cut_off.val ||| ENABLE_SENSOR

end L3GD20

/-- An abstract SPI bus machine with state `σ`, as the L3GD20 layer sees
it: a non-blocking send attempt, a non-blocking receive attempt (each may
answer ready, not-yet-ready or a fault, and may advance the machine), and
the two chip-select GPIO actions (`enable` drives `CS` low, `disable`
drives it high). -/
structure Bus (σ : Type) where
  sendA : σ → Nat → Res (NbErr SpiError) Unit × σ
  readA : σ → Res (NbErr SpiError) Nat × σ
  csLow : σ → σ
  csHigh : σ → σ

/-- Driver-visible events of one bus transaction, used to state framing
and ordering properties: chip-select transitions and the bytes pushed to
(`mosi`) and pulled from (`miso`) the bus. -/
inductive Event
  | csLow
  | csHigh
  | mosi (b : Nat)
  | miso (b : Nat)
  deriving DecidableEq

/-- The `block!(spi.send(..))` retry loop: repeat the send attempt while
it answers `WouldBlock`.  `fuel` bounds the number of attempts modelled;
`none` means the loop was still spinning when the fuel ran out (the Rust
loop has not returned). -/
def blockSend {σ : Type} (B : Bus σ) (b : Nat) : Nat → σ → Option (Res SpiError Unit × σ)
  | 0, _ => none
  | fuel + 1, s =>
    match B.sendA s b with
    | (.ok u, s') => some (.ok u, s')
    | (.err .wouldBlock, s') => blockSend B b fuel s'
    | (.err (.other e), s') => some (.err e, s')

/-- The `block!(spi.read())` retry loop, analogous to `blockSend`. -/
def blockRead {σ : Type} (B : Bus σ) : Nat → σ → Option (Res SpiError Nat × σ)
  | 0, _ => none
  | fuel + 1, s =>
    match B.readA s with
    | (.ok r, s') => some (.ok r, s')
    | (.err .wouldBlock, s') => blockRead B fuel s'
    | (.err (.other e), s') => some (.err e, s')

/-- One send-then-receive pair as both `L3GD20::write` and `L3GD20::read`
perform it: `block!(spi.send(b))?` immediately followed by
`block!(spi.read())?`.  Returns the received byte and the trace of the
byte exchanges that completed. -/
def sendRecv {σ : Type} (B : Bus σ) (fuel : Nat) (b : Nat) (s : σ) :
    Option (Res SpiError Nat × σ) × List Event :=
  match blockSend B b fuel s with
  | none => (none, [])
  | some (.err e, s') => (some (.err e, s'), [])
  | some (.ok _, s') =>
    match blockRead B fuel s' with
    | none => (none, [Event.mosi b])
    | some (.err e, s'') => (some (.err e, s''), [Event.mosi b])
    | some (.ok r, s'') => (some (.ok r, s''), [Event.mosi b, Event.miso r])

/-- The payload loop of `L3GD20::write`: for each byte, send it and
perform the mandatory echo read. -/
def writeLoop {σ : Type} (B : Bus σ) (fuel : Nat) : List Nat → σ →
    Option (Res SpiError Unit × σ) × List Event
  | [], s => (some (.ok (), s), [])
  | b :: rest, s =>
    match sendRecv B fuel b s with
    | (none, tr) => (none, tr)
    | (some (.err e, s'), tr) => (some (.err e, s'), tr)
    | (some (.ok _, s'), tr) =>
      match writeLoop B fuel rest s' with
      | (res, tr') => (res, tr ++ tr')

/-- The buffer loop of `L3GD20::read`: for each requested byte, send
`JUNK_DATA` and store the echoed byte. -/
def readLoop {σ : Type} (B : Bus σ) (fuel : Nat) : Nat → σ →
    Option (Res SpiError (List Nat) × σ) × List Event
  | 0, s => (some (.ok [], s), [])
  | n + 1, s =>
    match sendRecv B fuel JUNK_DATA s with
    | (none, tr) => (none, tr)
    | (some (.err e, s'), tr) => (some (.err e, s'), tr)
    | (some (.ok r, s'), tr) =>
      match readLoop B fuel n s' with
      | (none, tr') => (none, tr ++ tr')
      | (some (.err e, s''), tr') => (some (.err e, s''), tr ++ tr')
      | (some (.ok rs, s''), tr') => (some (.ok (r :: rs), s''), tr ++ tr')

/-- `L3GD20::Error`: the gyroscope error type wraps the SPI error. -/
inductive GyroError
  | Spi (e : SpiError)
  deriving DecidableEq

/-- The gyroscope result type `Result<T> = Result<T, nb::Error<Error>>`. -/
abbrev GRes (α : Type) := Res (NbErr GyroError) α

namespace L3GD20

/-- `L3GD20::write` from `src/l3gd20.rs`: drive `CS` low, send the
command byte (with its echo read), send each payload byte (each with its
echo read), drive `CS` high.  Every fault is propagated with `?` after
`.map_err(Error::Spi).map_err(nb::Error::Other)`.  The second component
is the event trace of the call. -/
def write {σ : Type} (B : Bus σ) (fuel : Nat) (reg : Nat) (bytes : List Nat) (s : σ) :
    Option (GRes Unit × σ) × List Event :=
  let s0 := B.csLow s
  match sendRecv B fuel (writeCmd reg bytes.length) s0 with
  | (none, tr) => (none, Event.csLow :: tr)
  | (some (.err e, s1), tr) => (some (.err (.other (.Spi e)), s1), Event.csLow :: tr)
  | (some (.ok _, s1), tr) =>
    match writeLoop B fuel bytes s1 with
    | (none, tr') => (none, Event.csLow :: (tr ++ tr'))
    | (some (.err e, s2), tr') =>
      (some (.err (.other (.Spi e)), s2), Event.csLow :: (tr ++ tr'))
    | (some (.ok _, s2), tr') =>
      (some (.ok (), B.csHigh s2), Event.csLow :: (tr ++ tr') ++ [Event.csHigh])

/-- `L3GD20::read` from `src/l3gd20.rs`: drive `CS` low, send the command
byte (with its echo read), then for each of `len` buffer slots send
`JUNK_DATA` and store the echoed byte, and drive `CS` high.  On success
the filled buffer is returned. -/
def read {σ : Type} (B : Bus σ) (fuel : Nat) (reg : Nat) (len : Nat) (s : σ) :
    Option (GRes (List Nat) × σ) × List Event :=
  let s0 := B.csLow s
  match sendRecv B fuel (readCmd reg len) s0 with
  | (none, tr) => (none, Event.csLow :: tr)
  | (some (.err e, s1), tr) => (some (.err (.other (.Spi e)), s1), Event.csLow :: tr)
  | (some (.ok _, s1), tr) =>
    match readLoop B fuel len s1 with
    | (none, tr') => (none, Event.csLow :: (tr ++ tr'))
    | (some (.err e, s2), tr') =>
      (some (.err (.other (.Spi e)), s2), Event.csLow :: (tr ++ tr'))
    | (some (.ok buf, s2), tr') =>
      (some (.ok buf, B.csHigh s2), Event.csLow :: (tr ++ tr') ++ [Event.csHigh])

/-- `L3GD20::check_id`: read one byte from `WHO_AM_I` and compare with
`SENSOR_ID`. -/
def check_id {σ : Type} (B : Bus σ) (fuel : Nat) (s : σ) :
    Option (GRes Bool × σ) × List Event :=
  match read B fuel Register.WHO_AM_I 1 s with
  | (none, tr) => (none, tr)
  | (some (.err e, s'), tr) => (some (.err e, s'), tr)
  | (some (.ok id, s'), tr) => (some (.ok (id.getD 0 0 == SENSOR_ID), s'), tr)

/-- `L3GD20::temp`: read one byte from `OUT_TEMP` and cast it to `i8`. -/
def temp {σ : Type} (B : Bus σ) (fuel : Nat) (s : σ) :
    Option (GRes Int × σ) × List Event :=
  match read B fuel Register.OUT_TEMP 1 s with
  | (none, tr) => (none, tr)
  | (some (.err e, s'), tr) => (some (.err e, s'), tr)
  | (some (.ok data, s'), tr) => (some (.ok (toI8 (data.getD 0 0)), s'), tr)

/-- `L3GD20::status`: read one byte from `STATUS_REG` and decode the
eight flags. -/
def status {σ : Type} (B : Bus σ) (fuel : Nat) (s : σ) :
    Option (GRes Status × σ) × List Event :=
  match read B fuel Register.STATUS_REG 1 s with
  | (none, tr) => (none, tr)
  | (some (.err e, s'), tr) => (some (.err e, s'), tr)
  | (some (.ok data, s'), tr) => (some (.ok (decodeStatus (data.getD 0 0)), s'), tr)

/-- `L3GD20::measure`: read six bytes starting at `OUT_X_L` and decode
them with the selected scale factor (see `ScaleSelection.scale_factor`
for the `degToRad` parameter). -/
def measure {σ : Type} (B : Bus σ) (fuel : Nat) (dps : ScaleSelection) (degToRad : ℚ)
    (s : σ) : Option (GRes Measurement × σ) × List Event :=
  let scale := dps.scale_factor degToRad
  match read B fuel Register.OUT_X_L 6 s with
  | (none, tr) => (none, tr)
  | (some (.err e, s'), tr) => (some (.err e, s'), tr)
  | (some (.ok data, s'), tr) => (some (.ok (decodeMeasurement data scale), s'), tr)

/-- `L3GD20::config_reg3`: when the interrupt is requested, write
`ENABLE_DRDY` to `CTRL_REG3`; otherwise do nothing. -/
def config_reg3 {σ : Type} (B : Bus σ) (fuel : Nat) (interrupt : Bool) (s : σ) :
    Option (GRes Unit × σ) × List Event :=
  if interrupt then
    match write B fuel Register.CTRL_REG3 [ENABLE_DRDY] s with
    | (none, tr) => (none, tr)
    | (some (.err e, s'), tr) => (some (.err e, s'), tr)
    | (some (.ok _, s'), tr) => (some (.ok (), s'), tr)
  else (some (.ok (), s), [])

/-- `L3GD20::config_reg4`: write the scale discriminant to `CTRL_REG4`. -/
def config_reg4 {σ : Type} (B : Bus σ) (fuel : Nat) (scale : ScaleSelection) (s : σ) :
    Option (GRes Unit × σ) × List Event :=
  write B fuel Register.CTRL_REG4 [scale.val] s

/-- `L3GD20::config_reg1`: write the data-rate, cut-off and
`ENABLE_SENSOR` byte to `CTRL_REG1`. -/
def config_reg1 {σ : Type} (B : Bus σ) (fuel : Nat) (odr : ODR) (cut_off : CutOff) (s : σ) :
    Option (GRes Unit × σ) × List Event :=
  write B fuel Register.CTRL_REG1 [config_reg1_cmd odr cut_off] s

end L3GD20

/-- Outcome of `L3GD20::init`: normal return, an aborted
`assert!(self.check_id()?)` (a panic, not an error return), or an error
propagated with `?`. -/
inductive InitOutcome
  | ok
  | assertFailed
  | err (e : NbErr GyroError)
  deriving DecidableEq

/-- A register-protocol transaction issued by `L3GD20::init`, for stating
which register accesses happen and in which order. -/
inductive Txn
  | readT (reg : Nat) (len : Nat)
  | writeT (reg : Nat) (bytes : List Nat)
  deriving DecidableEq

/-- The transactions `config_reg3` issues: one `CTRL_REG3` write exactly
when the interrupt is requested. -/
def reg3Txns (interrupt : Bool) : List Txn :=
  if interrupt then [.writeT Register.CTRL_REG3 [ENABLE_DRDY]] else []

namespace L3GD20

/-- `L3GD20::init` from `src/l3gd20.rs`: configure the `CS` GPIO pin and
drive it high (pin setup, no bus transaction), check the device identity
with `assert!(self.check_id()?)`, then `config_reg3`, `config_reg4` and —
last — `config_reg1`.  The second component lists the register
transactions in the order `init` issued them. -/
def init {σ : Type} (B : Bus σ) (fuel : Nat) (cfg : Config) (s : σ) :
    Option (InitOutcome × σ) × List Txn :=
  match check_id B fuel s with
  | (none, _) => (none, [.readT Register.WHO_AM_I 1])
  | (some (.err e, s1), _) => (some (.err e, s1), [.readT Register.WHO_AM_I 1])
  | (some (.ok idOk, s1), _) =>
    if idOk then
      match config_reg3 B fuel cfg.interrupt s1 with
      | (none, _) => (none, .readT Register.WHO_AM_I 1 :: reg3Txns cfg.interrupt)
      | (some (.err e, s2), _) =>
        (some (.err e, s2), .readT Register.WHO_AM_I 1 :: reg3Txns cfg.interrupt)
      | (some (.ok _, s2), _) =>
        match config_reg4 B fuel cfg.scale s2 with
        | (none, _) =>
          (none, .readT Register.WHO_AM_I 1 :: reg3Txns cfg.interrupt ++
            [.writeT Register.CTRL_REG4 [cfg.scale.val]])
        | (some (.err e, s3), _) =>
          (some (.err e, s3), .readT Register.WHO_AM_I 1 :: reg3Txns cfg.interrupt ++
            [.writeT Register.CTRL_REG4 [cfg.scale.val]])
        | (some (.ok _, s3), _) =>
          match config_reg1 B fuel cfg.odr cfg.cut_off s3 with
          | (none, _) =>
            (none, .readT Register.WHO_AM_I 1 :: reg3Txns cfg.interrupt ++
              [.writeT Register.CTRL_REG4 [cfg.scale.val],
               .writeT Register.CTRL_REG1 [config_reg1_cmd cfg.odr cfg.cut_off]])
          | (some (.err e, s4), _) =>
            (some (.err e, s4), .readT Register.WHO_AM_I 1 :: reg3Txns cfg.interrupt ++
              [.writeT Register.CTRL_REG4 [cfg.scale.val],
               .writeT Register.CTRL_REG1 [config_reg1_cmd cfg.odr cfg.cut_off]])
          | (some (.ok _, s4), _) =>
            (some (.ok, s4), .readT Register.WHO_AM_I 1 :: reg3Txns cfg.interrupt ++
              [.writeT Register.CTRL_REG4 [cfg.scale.val],
               .writeT Register.CTRL_REG1 [config_reg1_cmd cfg.odr cfg.cut_off]])
    else (some (.assertFailed, s1), [.readT Register.WHO_AM_I 1])

end L3GD20

/-- A bus whose attempt outcomes come from a stream of SPI status
snapshots (`sts`) and data-register contents (`drs`), classified by the
`Spi::read` / `Spi::send` functions of `src/spi.rs`; the state is the
index of the next snapshot.  Chip-select toggling does not affect the
status stream. -/
def hwBus (sts : Nat → StatusReg) (drs : Nat → Nat) : Bus Nat :=
  ⟨fun n b => (match b with | _ => (Spi.send (sts n), n + 1)),
   fun n => (Spi.read (sts n) (drs n), n + 1),
   fun n => n, fun n => n⟩

/-- A status-snapshot stream that is always ready to send and receive and
always presents the byte `v` in the data register. -/
def readyBus (v : Nat) : Bus Nat :=
  hwBus (fun _ => ⟨false, false, false, true, true⟩) (fun _ => v)

/-- A status-snapshot stream whose overrun flag is permanently set: every
attempt faults with `Overrun`. -/
def ovrBus : Bus Nat :=
  hwBus (fun _ => ⟨true, false, false, false, false⟩) (fun _ => 0)

/-- The result of a driver call is not the `WouldBlock` variant (`none`
means the call has not returned at all within the modelled fuel). -/
def noWB {σ α : Type} (o : Option (GRes α × σ)) : Prop :=
  match o with
  | some (.err .wouldBlock, _) => False
  | _ => True

/-- The result of `init` is not the `WouldBlock` variant. -/
def initNoWB {σ : Type} (o : Option (InitOutcome × σ)) : Prop :=
  match o with
  | some (.err .wouldBlock, _) => False
  | _ => True

/-- Modelled from the spec: the repository has no test harness under
`src/`, so the "simulated bus" of the round-trip property is built here
from the spec's wire-level command format (§6: bit7 = direction, bit6 =
multi-byte, bits 5..0 = address) and auto-increment convention (§4.3, and
the glossary entry for the multi-byte-bit).  The device is either idle
(awaiting a command byte) or streaming a register write / read at an
address that auto-increments exactly when the multi-byte bit was set. -/
inductive DevMode
  | idle
  | writing (addr : Nat) (ms : Bool)
  | reading (addr : Nat) (ms : Bool)

/-- Modelled from the spec: state of the simulated device — a register
file with no side effects, the protocol mode, and the byte latched for
the next shift-register exchange. -/
structure DevState where
  regs : Nat → Nat
  mode : DevMode
  pending : Nat

/-- Modelled from the spec: how the simulated device consumes one byte
pushed by the master.  In idle mode the byte is a command byte; in write
mode it is stored at the current address; in read mode the current
register content is latched as the next echoed byte.  The address
auto-increments exactly when the multi-byte bit was set. -/
def devStep (s : DevState) (b : Nat) : DevState :=
  match s.mode with
  | .idle =>
    if b.testBit 7 then ⟨s.regs, .reading (b &&& 63) (b.testBit 6), 0⟩
    else ⟨s.regs, .writing (b &&& 63) (b.testBit 6), 0⟩
  | .writing addr ms =>
    ⟨fun a => if a = addr then b else s.regs a,
     .writing (if ms then addr + 1 else addr) ms, 0⟩
  | .reading addr ms =>
    ⟨s.regs, .reading (if ms then addr + 1 else addr) ms, s.regs addr⟩

/-- Modelled from the spec: the simulated bus.  Every attempt is ready at
once (the round-trip property abstracts from read/write timing), sends
feed `devStep`, receives return the latched byte, and deasserting or
asserting chip-select ends any in-flight transaction, returning the
device to idle. -/
def devBus : Bus DevState :=
  ⟨fun s b => (.ok (), devStep s b),
   fun s => (.ok s.pending, s),
   fun s => ⟨s.regs, .idle, s.pending⟩,
   fun s => ⟨s.regs, .idle, s.pending⟩⟩

/-- Register file after storing `bytes` at consecutive addresses starting
at `a`. -/
def writeMany (r : Nat → Nat) (a : Nat) : List Nat → (Nat → Nat)
  | [] => r
  | b :: bs => writeMany (fun x => if x = a then b else r x) (a + 1) bs

/-- The `n` register values at consecutive addresses starting at `a`. -/
def readSeq (r : Nat → Nat) (a : Nat) : Nat → List Nat
  | 0 => []
  | n + 1 => r a :: readSeq r (a + 1) n

set_option maxRecDepth 10000

/-- Claim C4: each single call of `Spi::send` and `Spi::read` classifies
one hardware-status snapshot with the fixed priority overrun >
mode-fault > checksum-error > ready > not-ready; an overrun always wins,
each fault only fires when the higher-priority flags are clear, the ready
flag is `RXNE` for `read` and `TXE` for `send`, and with no flag set the
outcome is `WouldBlock`. -/
theorem spi_fixed_priority_classification :
    ∀ (sr : StatusReg) (dr : Nat),
      (sr.ovr = true →
        Spi.read sr dr = .err (.other .Overrun) ∧ Spi.send sr = .err (.other .Overrun)) ∧
      (sr.ovr = false → sr.modf = true →
        Spi.read sr dr = .err (.other .ModeFault) ∧ Spi.send sr = .err (.other .ModeFault)) ∧
      (sr.ovr = false → sr.modf = false → sr.crcerr = true →
        Spi.read sr dr = .err (.other .Crc) ∧ Spi.send sr = .err (.other .Crc)) ∧
      (sr.ovr = false → sr.modf = false → sr.crcerr = false → sr.rxne = true →
        Spi.read sr dr = .ok (dr % 256)) ∧
      (sr.ovr = false → sr.modf = false → sr.crcerr = false → sr.txe = true →
        Spi.send sr = .ok ()) ∧
      (sr.ovr = false → sr.modf = false → sr.crcerr = false → sr.rxne = false →
        Spi.read sr dr = .err .wouldBlock) ∧
      (sr.ovr = false → sr.modf = false → sr.crcerr = false → sr.txe = false →
        Spi.send sr = .err .wouldBlock) := by
  rintro ⟨o, m, c, r, t⟩ dr
  cases o <;> cases m <;> cases c <;> cases r <;> cases t <;>
    simp [Spi.read, Spi.send]

/-- Witness for C4: at a snapshot with both the overrun and the ready
flags set, the outcome is the overrun fault. -/
theorem spi_fixed_priority_classification_witness :
    Spi.read ⟨true, false, false, true, true⟩ 7 = .err (.other .Overrun) :=
  ((spi_fixed_priority_classification ⟨true, false, false, true, true⟩ 7).1 rfl).1

/-- Claim C8: the status byte decodes bit-for-bit — bit7..bit0 map to
sensor-overrun, z-overrun, y-overrun, x-overrun, new-data, z-new, y-new,
x-new — and byte 0b10010001 decodes to exactly sensor-overrun, x-overrun
and x-new set. -/
theorem status_decode_bits :
    (∀ b : Fin 256,
      decodeStatus b.val = ⟨b.val.testBit 7, b.val.testBit 6, b.val.testBit 5,
        b.val.testBit 4, b.val.testBit 3, b.val.testBit 2, b.val.testBit 1,
        b.val.testBit 0⟩) ∧
    decodeStatus 0b10010001 = ⟨true, false, false, true, false, false, false, true⟩ :=
  ⟨by decide, by decide⟩

/-- Claim C10: for every output-data-rate and cut-off selection, the byte
`config_reg1` writes to `CTRL_REG1` has its low four bits equal to 0x0F
(power-on plus all three axes enabled), because the discriminants of both
enums have a zero low nibble and the byte is their OR with
`ENABLE_SENSOR`. -/
theorem ctrl_reg1_low_nibble_always_enables :
    ∀ (odr : ODR) (cut_off : CutOff),
      L3GD20.config_reg1_cmd odr cut_off &&& 0x0F = 0x0F ∧
      L3GD20.config_reg1_cmd odr cut_off % 16 = 0x0F := by
  intro o c
  cases o <;> cases c <;> decide

/-- Bits of a multi-byte read command byte, for all 6-bit addresses. -/
theorem readCmd_bits_multi : ∀ r : Fin 64,
    (((1 <<< 7) ||| MS) ||| (r : Nat)).testBit 7 = true ∧
    (((1 <<< 7) ||| MS) ||| (r : Nat)).testBit 6 = true ∧
    (((1 <<< 7) ||| MS) ||| (r : Nat)) &&& 63 = r := by decide

/-- Bits of a single-byte read command byte, for all 6-bit addresses. -/
theorem readCmd_bits_single : ∀ r : Fin 64,
    ((1 <<< 7) ||| (r : Nat)).testBit 7 = true ∧
    ((1 <<< 7) ||| (r : Nat)).testBit 6 = false ∧
    ((1 <<< 7) ||| (r : Nat)) &&& 63 = r := by decide

/-- Claim C5: the command byte built by `L3GD20::read` is the register
address with the direction bit (bit 7) set and the multi-byte bit (bit 6)
set exactly when the buffer length exceeds 1; a single-byte read of
register 0x27 sends 0xA7 and a 6-byte read of register 0x28 sends 0xE8
(both also checked as the first byte pushed on the bus). -/
theorem read_command_byte_encoding :
    L3GD20.readCmd 0x27 1 = 0xA7 ∧
    L3GD20.readCmd 0x28 6 = 0xE8 ∧
    (L3GD20.read (readyBus 0) 1 0x27 1 0).2.get? 1 = some (Event.mosi 0xA7) ∧
    (L3GD20.read (readyBus 0) 1 0x28 6 0).2.get? 1 = some (Event.mosi 0xE8) ∧
    ∀ reg : Nat, reg < 64 → ∀ len : Nat,
      (L3GD20.readCmd reg len).testBit 7 = true ∧
      (L3GD20.readCmd reg len).testBit 6 = decide (1 < len) ∧
      L3GD20.readCmd reg len &&& 63 = reg := by
  refine ⟨by decide, by decide, by decide, by decide, ?_⟩
  intro reg h len
  by_cases hl : 1 < len
  · have hm := readCmd_bits_multi ⟨reg, h⟩
    simp only [L3GD20.readCmd, gt_iff_lt, if_pos hl]
    refine ⟨hm.1, ?_, hm.2.2⟩
    rw [decide_eq_true hl]
    exact hm.2.1
  · have hs := readCmd_bits_single ⟨reg, h⟩
    simp only [L3GD20.readCmd, gt_iff_lt, if_neg hl]
    refine ⟨hs.1, ?_, hs.2.2⟩
    rw [decide_eq_false hl]
    exact hs.2.1

/-- Witness for C5: the general bit characterization evaluated at
register 0x28 with a 6-byte buffer. -/
theorem read_command_byte_encoding_witness :
    (L3GD20.readCmd 0x28 6).testBit 7 = true ∧
    (L3GD20.readCmd 0x28 6).testBit 6 = decide (1 < 6) ∧
    L3GD20.readCmd 0x28 6 &&& 63 = 0x28 :=
  read_command_byte_encoding.2.2.2.2 0x28 (by decide) 6

/-- Claim C1 (code bug): over the bus whose first send attempt faults
with `Overrun`, `L3GD20::write` returns the fault after asserting
chip-select, but the trace shows the select line is never deasserted —
the `?` early return skips the `disable()` call, so framing is not
closed on the error path, contrary to the spec. -/
theorem write_fault_leaves_select_asserted :
    (L3GD20.write ovrBus 1 Register.CTRL_REG1 [ENABLE_SENSOR] 0).1 =
      some (.err (.other (.Spi .Overrun)), 1) ∧
    (L3GD20.write ovrBus 1 Register.CTRL_REG1 [ENABLE_SENSOR] 0).2 = [Event.csLow] ∧
    Event.csHigh ∉ (L3GD20.write ovrBus 1 Register.CTRL_REG1 [ENABLE_SENSOR] 0).2 ∧
    (L3GD20.read ovrBus 1 Register.WHO_AM_I 1 0).1 =
      some (.err (.other (.Spi .Overrun)), 1) ∧
    Event.csHigh ∉ (L3GD20.read ovrBus 1 Register.WHO_AM_I 1 0).2 := by
  refine ⟨by decide, by decide, by decide, by decide, by decide⟩

/-- For a low byte, OR-ing it into the shifted high byte is the same as
adding it: the low 8 bits of the shifted word are zero. -/
theorem byte_or_eq_add {h l : Nat} (hl : l < 256) : (h <<< 8) ||| l = (h <<< 8) + l := by
  have hl' : l < 2 ^ 8 := hl
  apply Nat.eq_of_testBit_eq
  intro i
  rw [Nat.testBit_or, Nat.testBit_shiftLeft, Nat.shiftLeft_eq, Nat.mul_comm h (2 ^ 8),
    Nat.testBit_mul_pow_two_add h hl' i]
  by_cases hi : i < 8
  · have : ¬(8 ≤ i) := by omega
    simp [hi, this]
  · have h8 : 8 ≤ i := by omega
    have hfl : l.testBit i = false :=
      Nat.testBit_lt_two_pow (lt_of_lt_of_le hl' (Nat.pow_le_pow_right (by norm_num) h8))
    simp [hi, h8, hfl]

/-- Specialization of `byte_or_eq_add` to a reduced byte, usable by
`simp`. -/
theorem byte_or_eq_add' (h l : Nat) : (h <<< 8) ||| (l % 256) = (h <<< 8) + l % 256 :=
  byte_or_eq_add (Nat.mod_lt _ (by norm_num))

/-- Claim C7: the measurement decoder agrees, for every payload and every
scale, with the spec's per-axis formula — combine low byte then high byte
into an unsigned 16-bit word, reinterpret as signed 16-bit
two's-complement, convert, and multiply by the scale's
radians-per-second-per-LSB factor; the all-zero payload decodes to zero
for any scale, and payload FF FF 00 00 00 00 with the Dps250 scale
decodes to x = -1 times the Dps250 factor with y = z = 0 (the factor's
degree-to-radian constant is the abstracted `degToRad` parameter). -/
theorem measurement_decode :
    (∀ (data : List Nat) (scale : ℚ),
      decodeMeasurement data scale = decode_measurement_spec data scale) ∧
    (∀ scale : ℚ, decodeMeasurement [0, 0, 0, 0, 0, 0] scale = ⟨0, 0, 0⟩) ∧
    (∀ degToRad : ℚ,
      decodeMeasurement [0xFF, 0xFF, 0, 0, 0, 0] (ScaleSelection.Dps250.scale_factor degToRad) =
        ⟨-1 * ScaleSelection.Dps250.scale_factor degToRad, 0, 0⟩) := by
  refine ⟨?_, ?_, ?_⟩
  · intro data scale
    simp only [decodeMeasurement, decode_measurement_spec, byte_or_eq_add']
  · intro scale
    simp [decodeMeasurement, toI16]
  · intro d
    simp [decodeMeasurement, toI16, ScaleSelection.scale_factor, ScaleSelection.mdps]


/-- No `WouldBlock` escapes `L3GD20::write`: all its error paths wrap a
bus fault in `nb::Error::Other`. -/
theorem noWB_write {σ : Type} (B : Bus σ) (fuel reg : Nat) (bytes : List Nat) (s : σ) :
    noWB (L3GD20.write B fuel reg bytes s).1 := by
  unfold L3GD20.write
  dsimp only
  repeat' split
  all_goals trivial

/-- No `WouldBlock` escapes `L3GD20::read`. -/
theorem noWB_read {σ : Type} (B : Bus σ) (fuel reg len : Nat) (s : σ) :
    noWB (L3GD20.read B fuel reg len s).1 := by
  unfold L3GD20.read
  dsimp only
  repeat' split
  all_goals trivial

/-- No `WouldBlock` escapes `L3GD20::check_id`. -/
theorem noWB_check_id {σ : Type} (B : Bus σ) (fuel : Nat) (s : σ) :
    noWB (L3GD20.check_id B fuel s).1 := by
  have h := noWB_read B fuel Register.WHO_AM_I 1 s
  unfold L3GD20.check_id
  rcases hr : L3GD20.read B fuel Register.WHO_AM_I 1 s with ⟨o, tr⟩
  rw [hr] at h
  rcases o with _ | ⟨r, s'⟩
  · trivial
  · rcases r with a | e
    · trivial
    · rcases e with _ | e
      · exact h.elim
      · trivial

/-- No `WouldBlock` escapes `L3GD20::temp`. -/
theorem noWB_temp {σ : Type} (B : Bus σ) (fuel : Nat) (s : σ) :
    noWB (L3GD20.temp B fuel s).1 := by
  have h := noWB_read B fuel Register.OUT_TEMP 1 s
  unfold L3GD20.temp
  rcases hr : L3GD20.read B fuel Register.OUT_TEMP 1 s with ⟨o, tr⟩
  rw [hr] at h
  rcases o with _ | ⟨r, s'⟩
  · trivial
  · rcases r with a | e
    · trivial
    · rcases e with _ | e
      · exact h.elim
      · trivial

/-- No `WouldBlock` escapes `L3GD20::status`. -/
theorem noWB_status {σ : Type} (B : Bus σ) (fuel : Nat) (s : σ) :
    noWB (L3GD20.status B fuel s).1 := by
  have h := noWB_read B fuel Register.STATUS_REG 1 s
  unfold L3GD20.status
  rcases hr : L3GD20.read B fuel Register.STATUS_REG 1 s with ⟨o, tr⟩
  rw [hr] at h
  rcases o with _ | ⟨r, s'⟩
  · trivial
  · rcases r with a | e
    · trivial
    · rcases e with _ | e
      · exact h.elim
      · trivial

/-- No `WouldBlock` escapes `L3GD20::measure`. -/
theorem noWB_measure {σ : Type} (B : Bus σ) (fuel : Nat) (dps : ScaleSelection)
    (degToRad : ℚ) (s : σ) : noWB (L3GD20.measure B fuel dps degToRad s).1 := by
  have h := noWB_read B fuel Register.OUT_X_L 6 s
  unfold L3GD20.measure
  rcases hr : L3GD20.read B fuel Register.OUT_X_L 6 s with ⟨o, tr⟩
  rw [hr] at h
  rcases o with _ | ⟨r, s'⟩
  · trivial
  · rcases r with a | e
    · trivial
    · rcases e with _ | e
      · exact h.elim
      · trivial

/-- No `WouldBlock` escapes `L3GD20::config_reg3`. -/
theorem noWB_config_reg3 {σ : Type} (B : Bus σ) (fuel : Nat) (intr : Bool) (s : σ) :
    noWB (L3GD20.config_reg3 B fuel intr s).1 := by
  have h := noWB_write B fuel Register.CTRL_REG3 [ENABLE_DRDY] s
  unfold L3GD20.config_reg3
  rcases hi : intr with _ | _
  · trivial
  · rcases hr : L3GD20.write B fuel Register.CTRL_REG3 [ENABLE_DRDY] s with ⟨o, tr⟩
    rw [hr] at h
    rcases o with _ | ⟨r, s'⟩
    · trivial
    · rcases r with a | e
      · trivial
      · rcases e with _ | e
        · exact h.elim
        · trivial

/-- No `WouldBlock` escapes `L3GD20::init`. -/
theorem initNoWB_init {σ : Type} (B : Bus σ) (fuel : Nat) (cfg : Config) (s : σ) :
    initNoWB (L3GD20.init B fuel cfg s).1 := by
  have h0 := noWB_check_id B fuel s
  unfold L3GD20.init
  rcases hc : L3GD20.check_id B fuel s with ⟨o, tr⟩
  rw [hc] at h0
  rcases o with _ | ⟨r, s1⟩
  · trivial
  · rcases r with idOk | e
    swap
    · rcases e with _ | e
      · exact h0.elim
      · trivial
    · rcases idOk with _ | _
      · trivial
      · have h3 := noWB_config_reg3 B fuel cfg.interrupt s1
        dsimp only
        rcases h3r : L3GD20.config_reg3 B fuel cfg.interrupt s1 with ⟨o3, tr3⟩
        rw [h3r] at h3
        rcases o3 with _ | ⟨r3, s2⟩
        · trivial
        · rcases r3 with a3 | e3
          swap
          · rcases e3 with _ | e3
            · exact h3.elim
            · trivial
          · have h4 := noWB_write B fuel Register.CTRL_REG4 [cfg.scale.val] s2
            rcases h4r : L3GD20.write B fuel Register.CTRL_REG4 [cfg.scale.val] s2 with ⟨o4, tr4⟩
            unfold L3GD20.config_reg4
            dsimp only
            rw [h4r] at h4 ⊢
            rcases o4 with _ | ⟨r4, s3⟩
            · trivial
            · rcases r4 with a4 | e4
              swap
              · rcases e4 with _ | e4
                · exact h4.elim
                · trivial
              · have h1 := noWB_write B fuel Register.CTRL_REG1
                  [L3GD20.config_reg1_cmd cfg.odr cfg.cut_off] s3
                rcases h1r : L3GD20.write B fuel Register.CTRL_REG1
                    [L3GD20.config_reg1_cmd cfg.odr cfg.cut_off] s3 with ⟨o1, tr1⟩
                unfold L3GD20.config_reg1
                dsimp only
                rw [h1r] at h1 ⊢
                rcases o1 with _ | ⟨r1, s4⟩
                · trivial
                · rcases r1 with a1 | e1
                  · trivial
                  · rcases e1 with _ | e1
                    · exact h1.elim
                    · trivial

/-- Claim C6: for every bus machine (hence every sequence of transport
outcomes) and every fuel, no public driver operation — `init`,
`check_id`, `temp`, `status`, `measure`, or the underlying
`write`/`read` — ever returns the transient `WouldBlock` variant to its
caller: `block!` absorbs it, and only ready results or bus faults escape
(`none` marks a call still spinning inside a retry loop, i.e. one that
has not returned). -/
theorem no_would_block_escapes {σ : Type} (B : Bus σ) (fuel : Nat) (s : σ)
    (reg len : Nat) (bytes : List Nat) (cfg : Config) (dps : ScaleSelection) (degToRad : ℚ) :
    noWB (L3GD20.write B fuel reg bytes s).1 ∧
    noWB (L3GD20.read B fuel reg len s).1 ∧
    noWB (L3GD20.check_id B fuel s).1 ∧
    noWB (L3GD20.temp B fuel s).1 ∧
    noWB (L3GD20.status B fuel s).1 ∧
    noWB (L3GD20.measure B fuel dps degToRad s).1 ∧
    initNoWB (L3GD20.init B fuel cfg s).1 :=
  ⟨noWB_write B fuel reg bytes s, noWB_read B fuel reg len s, noWB_check_id B fuel s,
   noWB_temp B fuel s, noWB_status B fuel s, noWB_measure B fuel dps degToRad s,
   initNoWB_init B fuel cfg s⟩

/-- Counterexample for C2: over a bus that is always ready and always
presents byte 0 (so the identity read yields 0 ≠ 0b11010100), `init`
aborts in the failed `assert!` — it does not return an
`IdentityMismatch` error (no such variant exists in the code; the error
type only wraps SPI faults) — and the transaction log holds exactly the
identity read, no configuration write. -/
theorem init_mismatch_counterexample :
    (L3GD20.init (readyBus 0) 1 ⟨.Hz95, .Freq30, true, .Dps250⟩ 0).1 =
      some (.assertFailed, 4) ∧
    (L3GD20.init (readyBus 0) 1 ⟨.Hz95, .Freq30, true, .Dps250⟩ 0).2 =
      [Txn.readT Register.WHO_AM_I 1] :=
  ⟨by decide, by decide⟩

/-- Claim C2 (amended): whenever the identity read performed by `init`
returns a byte different from the device ID 0b11010100, `init` performs
zero configuration-register writes, but instead of returning an
`IdentityMismatch` error it aborts in `assert!(self.check_id()?)` — a
panic, not an error return. -/
theorem init_mismatch_asserts_no_config_writes {σ : Type} (B : Bus σ) (fuel : Nat)
    (cfg : Config) (s : σ) (b : Nat) (s' : σ)
    (hread : (L3GD20.read B fuel Register.WHO_AM_I 1 s).1 = some (.ok [b], s'))
    (hb : b ≠ SENSOR_ID) :
    (L3GD20.init B fuel cfg s).1 = some (.assertFailed, s') ∧
    (L3GD20.init B fuel cfg s).2 = [Txn.readT Register.WHO_AM_I 1] ∧
    ∀ r bs, Txn.writeT r bs ∉ (L3GD20.init B fuel cfg s).2 := by
  have hbeq : (b == SENSOR_ID) = false := by
    simp [hb]
  rcases hr : L3GD20.read B fuel Register.WHO_AM_I 1 s with ⟨o, tr⟩
  rw [hr] at hread
  dsimp only at hread
  subst hread
  have hcheck : L3GD20.check_id B fuel s = (some (.ok false, s'), tr) := by
    unfold L3GD20.check_id
    rw [hr]
    dsimp only [List.getD]
    rw [show (List.get? [b] 0).getD 0 = b from rfl] at *
    rw [hbeq]
  unfold L3GD20.init
  rw [hcheck]
  dsimp only
  refine ⟨rfl, rfl, ?_⟩
  intro r bs
  simp

/-- On every successful run, the transaction log of `init` is exactly
the identity read, the conditional `CTRL_REG3` write, the `CTRL_REG4`
write and, last, the `CTRL_REG1` write. -/
theorem init_ok_log {σ : Type} (B : Bus σ) (fuel : Nat) (cfg : Config) (s s' : σ)
    (h : (L3GD20.init B fuel cfg s).1 = some (.ok, s')) :
    (L3GD20.init B fuel cfg s).2 =
      .readT Register.WHO_AM_I 1 :: reg3Txns cfg.interrupt ++
        [.writeT Register.CTRL_REG4 [cfg.scale.val],
         .writeT Register.CTRL_REG1 [L3GD20.config_reg1_cmd cfg.odr cfg.cut_off]] := by
  unfold L3GD20.init at h ⊢
  rcases hc : L3GD20.check_id B fuel s with ⟨o, tr⟩
  rw [hc] at h
  rcases o with _ | ⟨r, s1⟩
  · simp at h
  rcases r with idOk | e
  swap
  · simp at h
  rcases idOk with _ | _
  · simp at h
  dsimp only at h ⊢
  rcases h3 : L3GD20.config_reg3 B fuel cfg.interrupt s1 with ⟨o3, tr3⟩
  rw [h3] at h
  rcases o3 with _ | ⟨r3, s2⟩
  · simp at h
  rcases r3 with a3 | e3
  swap
  · simp at h
  dsimp only at h ⊢
  unfold L3GD20.config_reg4 at h ⊢
  rcases h4 : L3GD20.write B fuel Register.CTRL_REG4 [cfg.scale.val] s2 with ⟨o4, tr4⟩
  rw [h4] at h
  rcases o4 with _ | ⟨r4, s3⟩
  · simp at h
  rcases r4 with a4 | e4
  swap
  · simp at h
  dsimp only at h ⊢
  unfold L3GD20.config_reg1 at h ⊢
  rcases h1 : L3GD20.write B fuel Register.CTRL_REG1
      [L3GD20.config_reg1_cmd cfg.odr cfg.cut_off] s3 with ⟨o1, tr1⟩
  rw [h1] at h
  rcases o1 with _ | ⟨r1, s4⟩
  · simp at h
  rcases r1 with a1 | e1
  swap
  · simp at h
  rfl

/-- Claim C3: in every successful `init`, a `CTRL_REG1` write occurs,
and every `CTRL_REG1` (power-enabling) write in the transaction sequence
comes strictly after every `CTRL_REG3` (interrupt-control) write — when
one occurs — and strictly after every `CTRL_REG4` (range-control)
write; no `CTRL_REG1` write ever precedes them. -/
theorem ctrl_reg1_written_last {σ : Type} (B : Bus σ) (fuel : Nat) (cfg : Config) (s s' : σ)
    (h : (L3GD20.init B fuel cfg s).1 = some (.ok, s')) :
    (∃ bs, Txn.writeT Register.CTRL_REG1 bs ∈ (L3GD20.init B fuel cfg s).2) ∧
    (∀ i j bs1 bs3,
      ((L3GD20.init B fuel cfg s).2).get? i = some (.writeT Register.CTRL_REG1 bs1) →
      ((L3GD20.init B fuel cfg s).2).get? j = some (.writeT Register.CTRL_REG3 bs3) →
      j < i) ∧
    (∀ i j bs1 bs4,
      ((L3GD20.init B fuel cfg s).2).get? i = some (.writeT Register.CTRL_REG1 bs1) →
      ((L3GD20.init B fuel cfg s).2).get? j = some (.writeT Register.CTRL_REG4 bs4) →
      j < i) := by
  rw [init_ok_log B fuel cfg s s' h]
  rcases hi : cfg.interrupt with _ | _ <;>
    simp only [reg3Txns, if_pos rfl, if_neg Bool.false_ne_true] <;>
    refine ⟨⟨[L3GD20.config_reg1_cmd cfg.odr cfg.cut_off], by simp⟩, ?_, ?_⟩ <;>
    intro i j bs1 bs3 h1 h2 <;>
    rcases i with _ | _ | _ | _ | i <;> rcases j with _ | _ | _ | _ | j <;>
    simp_all [List.get?, Register.CTRL_REG1, Register.CTRL_REG3, Register.CTRL_REG4,
      Register.WHO_AM_I]

/-- Witness for the amended C2: over an always-ready bus presenting byte
5, `init` hits the identity mismatch, aborts, and writes nothing. -/
theorem init_mismatch_asserts_no_config_writes_witness :
    (L3GD20.init (readyBus 5) 1 ⟨.Hz380, .Freq50, true, .Dps2000⟩ 0).1 =
      some (.assertFailed, 4) ∧
    (L3GD20.init (readyBus 5) 1 ⟨.Hz380, .Freq50, true, .Dps2000⟩ 0).2 =
      [Txn.readT Register.WHO_AM_I 1] ∧
    ∀ r bs, Txn.writeT r bs ∉ (L3GD20.init (readyBus 5) 1 ⟨.Hz380, .Freq50, true, .Dps2000⟩ 0).2 :=
  init_mismatch_asserts_no_config_writes (readyBus 5) 1 ⟨.Hz380, .Freq50, true, .Dps2000⟩ 0 5 4
    (by decide) (by decide)

/-- Witness for C3: over an always-ready bus presenting the correct
device ID (0xD4 = 212), `init` succeeds and the ordering statement holds
at that run. -/
theorem ctrl_reg1_written_last_witness :
    (∃ bs, Txn.writeT Register.CTRL_REG1 bs ∈
      (L3GD20.init (readyBus 212) 1 ⟨.Hz95, .Freq30, true, .Dps250⟩ 0).2) ∧
    (∀ i j bs1 bs3,
      ((L3GD20.init (readyBus 212) 1 ⟨.Hz95, .Freq30, true, .Dps250⟩ 0).2).get? i =
        some (.writeT Register.CTRL_REG1 bs1) →
      ((L3GD20.init (readyBus 212) 1 ⟨.Hz95, .Freq30, true, .Dps250⟩ 0).2).get? j =
        some (.writeT Register.CTRL_REG3 bs3) →
      j < i) ∧
    (∀ i j bs1 bs4,
      ((L3GD20.init (readyBus 212) 1 ⟨.Hz95, .Freq30, true, .Dps250⟩ 0).2).get? i =
        some (.writeT Register.CTRL_REG1 bs1) →
      ((L3GD20.init (readyBus 212) 1 ⟨.Hz95, .Freq30, true, .Dps250⟩ 0).2).get? j =
        some (.writeT Register.CTRL_REG4 bs4) →
      j < i) :=
  ctrl_reg1_written_last (readyBus 212) 1 ⟨.Hz95, .Freq30, true, .Dps250⟩ 0 16 (by decide)

/-- On the simulated device a send-receive pair completes at once: the
device consumes the pushed byte and echoes its latched byte. -/
theorem sendRecv_dev (k b : Nat) (s : DevState) :
    sendRecv devBus (k + 1) b s =
      (some (.ok (devStep s b).pending, devStep s b),
       [Event.mosi b, Event.miso (devStep s b).pending]) := rfl

/-- Bits of a multi-byte write command byte, for all 6-bit addresses. -/
theorem writeCmd_bits_multi : ∀ r : Fin 64,
    ((((0 <<< 7) ||| MS) ||| (r : Nat)).testBit 7 = false) ∧
    ((((0 <<< 7) ||| MS) ||| (r : Nat)).testBit 6 = true) ∧
    ((((0 <<< 7) ||| MS) ||| (r : Nat)) &&& 63 = r) := by decide

/-- Bits of a single-byte write command byte, for all 6-bit addresses. -/
theorem writeCmd_bits_single : ∀ r : Fin 64,
    (((0 <<< 7) ||| (r : Nat)).testBit 7 = false) ∧
    (((0 <<< 7) ||| (r : Nat)).testBit 6 = false) ∧
    (((0 <<< 7) ||| (r : Nat)) &&& 63 = r) := by decide

/-- An idle simulated device parses a multi-byte write command byte into
auto-incrementing write mode at the encoded address. -/
theorem devStep_idle_write_multi {reg len : Nat} (h : reg < 64) (hl : 1 < len)
    (r : Nat → Nat) (p : Nat) :
    devStep ⟨r, .idle, p⟩ (L3GD20.writeCmd reg len) = ⟨r, .writing reg true, 0⟩ := by
  have hb := writeCmd_bits_multi ⟨reg, h⟩
  unfold devStep L3GD20.writeCmd
  rw [if_pos hl]
  dsimp only
  rw [hb.1, hb.2.1, hb.2.2]
  simp

/-- An idle simulated device parses a single-byte write command byte into
non-incrementing write mode at the encoded address. -/
theorem devStep_idle_write_single {reg : Nat} (h : reg < 64) (r : Nat → Nat) (p : Nat) :
    devStep ⟨r, .idle, p⟩ (L3GD20.writeCmd reg 1) = ⟨r, .writing reg false, 0⟩ := by
  have hb := writeCmd_bits_single ⟨reg, h⟩
  unfold devStep L3GD20.writeCmd
  rw [if_neg (by omega : ¬(1 : Nat) > 1)]
  dsimp only
  rw [hb.1, hb.2.1, hb.2.2]
  simp

/-- An idle simulated device parses a multi-byte read command byte into
auto-incrementing read mode at the encoded address. -/
theorem devStep_idle_read_multi {reg len : Nat} (h : reg < 64) (hl : 1 < len)
    (r : Nat → Nat) (p : Nat) :
    devStep ⟨r, .idle, p⟩ (L3GD20.readCmd reg len) = ⟨r, .reading reg true, 0⟩ := by
  have hb := readCmd_bits_multi ⟨reg, h⟩
  unfold devStep L3GD20.readCmd
  rw [if_pos hl]
  dsimp only
  rw [hb.1, hb.2.1, hb.2.2]
  simp

/-- An idle simulated device parses a single-byte read command byte into
non-incrementing read mode at the encoded address. -/
theorem devStep_idle_read_single {reg : Nat} (h : reg < 64) (r : Nat → Nat) (p : Nat) :
    devStep ⟨r, .idle, p⟩ (L3GD20.readCmd reg 1) = ⟨r, .reading reg false, 0⟩ := by
  have hb := readCmd_bits_single ⟨reg, h⟩
  unfold devStep L3GD20.readCmd
  rw [if_neg (by omega : ¬(1 : Nat) > 1)]
  dsimp only
  rw [hb.1, hb.2.1, hb.2.2]
  simp

/-- The payload loop of a multi-byte write stores the payload at
consecutive addresses on the simulated device and succeeds. -/
theorem writeLoop_dev (k : Nat) (bytes : List Nat) :
    ∀ (r : Nat → Nat) (a p : Nat),
    ∃ s', (writeLoop devBus (k + 1) bytes ⟨r, .writing a true, p⟩).1 =
        some (.ok (), s') ∧ s'.regs = writeMany r a bytes := by
  induction bytes with
  | nil =>
    intro r a p
    exact ⟨⟨r, .writing a true, p⟩, rfl, rfl⟩
  | cons b bs ih =>
    intro r a p
    obtain ⟨s', h1, h2⟩ := ih (fun x => if x = a then b else r x) (a + 1) 0
    refine ⟨s', ?_, by rw [h2]; rfl⟩
    rcases hw : writeLoop devBus (k + 1) bs
        ⟨fun x => if x = a then b else r x, .writing (a + 1) true, 0⟩ with ⟨res, trw⟩
    rw [hw] at h1
    dsimp only at h1
    show (writeLoop devBus (k + 1) (b :: bs) ⟨r, .writing a true, p⟩).1 = _
    simp only [writeLoop, sendRecv_dev]
    simp only [devStep, reduceIte]
    rw [hw]
    exact h1

/-- The buffer loop of a multi-byte read returns the register values at
consecutive addresses of the simulated device and succeeds. -/
theorem readLoop_dev (k : Nat) (r : Nat → Nat) (n : Nat) :
    ∀ (a p : Nat),
    ∃ s', (readLoop devBus (k + 1) n ⟨r, .reading a true, p⟩).1 =
        some (.ok (readSeq r a n), s') := by
  induction n with
  | zero =>
    intro a p
    exact ⟨⟨r, .reading a true, p⟩, rfl⟩
  | succ n ih =>
    intro a p
    obtain ⟨s', h1⟩ := ih (a + 1) (r a)
    rcases hw : readLoop devBus (k + 1) n ⟨r, .reading (a + 1) true, r a⟩ with ⟨res, trr⟩
    rw [hw] at h1
    dsimp only at h1
    subst h1
    refine ⟨s', ?_⟩
    show (readLoop devBus (k + 1) (n + 1) ⟨r, .reading a true, p⟩).1 = _
    simp only [readLoop, sendRecv_dev]
    simp only [devStep, reduceIte]
    rw [hw]
    rfl

theorem writeLoop_dev_single (k b : Nat) (r : Nat → Nat) (a p : Nat) :
    (writeLoop devBus (k + 1) [b] ⟨r, .writing a false, p⟩).1 =
      some (.ok (), ⟨fun x => if x = a then b else r x, .writing a false, 0⟩) := rfl

theorem readLoop_dev_single (k : Nat) (r : Nat → Nat) (a p : Nat) :
    (readLoop devBus (k + 1) 1 ⟨r, .reading a false, p⟩).1 =
      some (.ok [r a], ⟨r, .reading a false, r a⟩) := rfl

/-- Storing bytes at addresses from `a` upward leaves every address
below `a` unchanged. -/
theorem writeMany_lt (bs : List Nat) :
    ∀ (r : Nat → Nat) (a x : Nat), x < a → writeMany r a bs x = r x := by
  induction bs with
  | nil =>
    intro r a x _
    rfl
  | cons b bs ih =>
    intro r a x h
    show writeMany (fun y => if y = a then b else r y) (a + 1) bs x = r x
    rw [ih _ (a + 1) x (by omega)]
    simp [Nat.ne_of_lt h]

/-- Reading back the addresses just written yields the written bytes. -/
theorem readSeq_writeMany (bs : List Nat) :
    ∀ (r : Nat → Nat) (a : Nat), readSeq (writeMany r a bs) a bs.length = bs := by
  induction bs with
  | nil =>
    intro r a
    rfl
  | cons b bs ih =>
    intro r a
    show readSeq (writeMany (fun y => if y = a then b else r y) (a + 1) bs) a (bs.length + 1) =
      b :: bs
    simp only [readSeq]
    congr 1
    · rw [writeMany_lt bs _ (a + 1) a (by omega)]
      simp
    · exact ih _ (a + 1)

/-- One-byte payload loop on the simulated device, non-incrementing
mode. -/
theorem writeLoop_dev_single' (k b : Nat) (r : Nat → Nat) (a p : Nat) :
    writeLoop devBus (k + 1) [b] ⟨r, .writing a false, p⟩ =
      (some (.ok (), ⟨fun x => if x = a then b else r x, .writing a false, 0⟩),
       [Event.mosi b, Event.miso 0]) := rfl

/-- One-byte buffer loop on the simulated device, non-incrementing
mode. -/
theorem readLoop_dev_single' (k : Nat) (r : Nat → Nat) (a p : Nat) :
    readLoop devBus (k + 1) 1 ⟨r, .reading a false, p⟩ =
      (some (.ok [r a], ⟨r, .reading a false, r a⟩),
       [Event.mosi JUNK_DATA, Event.miso (r a)]) := rfl

/-- A full `L3GD20::write` transaction against the simulated device
succeeds and stores the payload at consecutive addresses from the
register address. -/
theorem write_dev_ok {reg : Nat} (h : reg < 64) (k : Nat) (bytes : List Nat)
    (hb : bytes ≠ []) (regs0 : Nat → Nat) :
    ∃ p1, (L3GD20.write devBus (k + 1) reg bytes ⟨regs0, .idle, 0⟩).1 =
        some (.ok (), ⟨writeMany regs0 reg bytes, .idle, p1⟩) := by
  have hcs : devBus.csLow ⟨regs0, .idle, 0⟩ = (⟨regs0, .idle, 0⟩ : DevState) := rfl
  rcases bytes with _ | ⟨b, rest⟩
  · exact absurd rfl hb
  rcases rest with _ | ⟨b2, rest2⟩
  · refine ⟨0, ?_⟩
    unfold L3GD20.write
    dsimp only
    rw [show ([b] : List Nat).length = 1 from rfl, hcs, sendRecv_dev,
      devStep_idle_write_single h]
    dsimp only
    rw [writeLoop_dev_single']
    rfl
  · obtain ⟨s', h1, h2⟩ := writeLoop_dev k (b :: b2 :: rest2) regs0 reg 0
    rcases hwl : writeLoop devBus (k + 1) (b :: b2 :: rest2)
        ⟨regs0, .writing reg true, 0⟩ with ⟨res, trw⟩
    rw [hwl] at h1
    dsimp only at h1
    subst h1
    refine ⟨s'.pending, ?_⟩
    unfold L3GD20.write
    dsimp only
    rw [hcs, sendRecv_dev,
      devStep_idle_write_multi h (by simp : 1 < (b :: b2 :: rest2).length)]
    dsimp only
    rw [hwl]
    dsimp only
    rw [show devBus.csHigh s' = (⟨s'.regs, .idle, s'.pending⟩ : DevState) from rfl, h2]

/-- A full `L3GD20::read` transaction against the simulated device
succeeds and returns the register values at consecutive addresses from
the register address. -/
theorem read_dev_ok {reg : Nat} (h : reg < 64) (k n : Nat) (hn : n ≠ 0)
    (regs1 : Nat → Nat) (p : Nat) :
    ∃ s2, (L3GD20.read devBus (k + 1) reg n ⟨regs1, .idle, p⟩).1 =
        some (.ok (readSeq regs1 reg n), s2) := by
  have hcs : devBus.csLow ⟨regs1, .idle, p⟩ = (⟨regs1, .idle, p⟩ : DevState) := rfl
  rcases n with _ | n
  · exact absurd rfl hn
  rcases n with _ | n
  · refine ⟨⟨regs1, .idle, regs1 reg⟩, ?_⟩
    rw [show (0 + 1 : Nat) = 1 from rfl]
    unfold L3GD20.read
    dsimp only
    rw [hcs, sendRecv_dev, devStep_idle_read_single h]
    dsimp only
    rw [readLoop_dev_single']
    rfl
  · rw [show (n + 1 + 1 : Nat) = n + 2 from rfl]
    obtain ⟨s', h1⟩ := readLoop_dev k regs1 (n + 2) reg 0
    rcases hrl : readLoop devBus (k + 1) (n + 2)
        ⟨regs1, .reading reg true, 0⟩ with ⟨res, trr⟩
    rw [hrl] at h1
    dsimp only at h1
    subst h1
    refine ⟨devBus.csHigh s', ?_⟩
    unfold L3GD20.read
    dsimp only
    rw [hcs, sendRecv_dev, devStep_idle_read_multi h (by omega : 1 < n + 2)]
    dsimp only
    rw [hrl]

/-- Claim C9: for every in-range register address (6 bits), every
non-empty payload and any fuel, writing the payload and then reading the
same register back with a buffer of the same length over the simulated
side-effect-free device returns exactly the written bytes. -/
theorem write_read_round_trip (regs0 : Nat → Nat) (reg : Nat) (bytes : List Nat)
    (fuel : Nat) (hreg : reg < 64) (hbytes : bytes ≠ []) (hfuel : 0 < fuel) :
    ∃ s1 s2,
      (L3GD20.write devBus fuel reg bytes ⟨regs0, .idle, 0⟩).1 = some (.ok (), s1) ∧
      (L3GD20.read devBus fuel reg bytes.length s1).1 = some (.ok bytes, s2) := by
  obtain ⟨k, rfl⟩ : ∃ k, fuel = k + 1 := ⟨fuel - 1, by omega⟩
  obtain ⟨p1, hw⟩ := write_dev_ok hreg k bytes hbytes regs0
  obtain ⟨s2, hr⟩ := read_dev_ok hreg k bytes.length
    (fun hlen => hbytes (List.length_eq_zero.mp hlen)) (writeMany regs0 reg bytes) p1
  rw [readSeq_writeMany] at hr
  exact ⟨⟨writeMany regs0 reg bytes, .idle, p1⟩, s2, hw, hr⟩

/-- Witness for C9: round trip of payload [1, 2, 3] through register
0x20 of a zeroed simulated device. -/
theorem write_read_round_trip_witness :
    ∃ s1 s2,
      (L3GD20.write devBus 1 0x20 [1, 2, 3] ⟨fun _ => 0, .idle, 0⟩).1 = some (.ok (), s1) ∧
      (L3GD20.read devBus 1 0x20 3 s1).1 = some (.ok [1, 2, 3], s2) :=
  write_read_round_trip (fun _ => 0) 0x20 [1, 2, 3] 1 (by decide) (by decide) (by decide)
